import Mathlib

/-!
# dbc4c: Design by Contract for C

A shallow embedding of `dbc_def.h`.  Every preprocessor definition of the header
that the contract checks use is a Lean function of the build configuration
(the preprocessor symbols), of the call site (`__FILE__`, `__func__`,
`__LINE__`), of the guarded expression and of the program state.

* A guarded expression is its source spelling together with a state
  transformer returning the scalar value it evaluates to, so an expression
  with side effects (`i++`) is an ordinary input.
* The state records the program variables, how many times a guarded
  expression has been evaluated, and everything written to the log sinks.
* A statement yields a control outcome: fall through, `goto label`, or the
  process was terminated by `assert`.

The logging definitions follow the GNU C branch of the header outside
Objective-C on macOS (lines 197-211), which prints `__FILE__`, `__func__` and
`__LINE__` through `ERRLOGPRINTF`.  It is the only branch from which a program
can be built: on the two others (lines 179-193 and 217-231) the definition of
`CHECK` applies `#` to `ORGPREFIX`, which is not a parameter, and the
preprocessor rejects the header.

The functions of the self-test program `dbctest.c` are embedded on top of the
checks: a function body is a sequence of statements, and a jump to `EXCEPTION`
runs the handler of the function.
-/

namespace Dbc

/-! ## Build configuration and program state -/

/-- Preprocessor symbols that select which variant of the header is compiled. -/
structure Config where
  /-- Whether `DBC_USEASSERTS` is defined. -/
  useAsserts : Bool
  /-- Whether `NDEBUG` is defined. -/
  ndebug : Bool
  /-- Whether `DBC_LOGGING_SYSLOG` is defined. -/
  loggingSyslog : Bool
  /-- The string `ORGANISATION` is defined as, if it is defined. -/
  organisation : Option String
deriving DecidableEq

/-- The call site of a check: `__FILE__`, `__func__` and `__LINE__`. -/
structure Site where
  file : String
  func : String
  line : Nat
deriving DecidableEq

/-- The sink a log line is written to: `fprintf(stdout, ...)` or
`syslog(LOG_ERR, ...)`. -/
inductive Dest
  | stdout
  | syslogErr
deriving DecidableEq

/-- One call of the print function.  `text` is `none` when the format string
does not fit its arguments: the C standard leaves the bytes written
undefined in that case. -/
structure LogEntry where
  dest : Dest
  text : Option String
deriving DecidableEq

/-- Program state around a check: the program variables, the number of
evaluations of guarded expressions so far, and the log written so far. -/
structure World (σ : Type) where
  vars : σ
  evals : Nat
  log : List LogEntry
deriving DecidableEq

/-- A guarded expression: its source spelling and its evaluation, which
returns the scalar value (integer or pointer) and the updated variables. -/
structure Guard (σ : Type) where
  text : String
  run : σ → Int × σ

/-- Control outcome of a statement. -/
inductive Flow
  | next
  | jump (label : String)
  | abort (site : Site)
deriving DecidableEq

/-- Evaluate a guarded expression once. -/
def evalExp {σ : Type} (g : Guard σ) (w : World σ) : Int × World σ :=
  ((g.run w.vars).1, { w with vars := (g.run w.vars).2, evals := w.evals + 1 })

/-- Statement sequencing: the next statement runs only when the previous one
fell through. -/
def andThen {σ : Type} (r : Flow × World σ) (k : World σ → Flow × World σ) :
    Flow × World σ :=
  match r.1 with
  | Flow.next => k r.2
  | _ => r

/-! ## Labels (lines 139-140) -/

/-- The default handler label: `#define EXCEPTION errorLabel`. -/
def EXCEPTION : String := "errorLabel"

/-- Rescan of a pasted identifier: an identifier that names the object-like
definition `EXCEPTION` is replaced by its body, any other stays. -/
def rescan (tok : String) : String :=
  if tok = "EXCEPTION" then EXCEPTION else tok

/-- The `##` operator: concatenate the two spellings, then rescan. -/
def tokenPaste (a b : String) : String := rescan (a ++ b)

/-- The named handler label: `#define EXCEPTION_EX(where) EXCEPTION##where`. -/
def EXCEPTION_EX (wh : String) : String := tokenPaste "EXCEPTION" wh

/-! ## Logging (lines 142-211) -/

/-- Lines 154-165: `DBC_LOGGING` is `false` under `NDEBUG` and `true` otherwise. -/
def DBC_LOGGING (cfg : Config) : Bool := !cfg.ndebug

/-- Lines 142-151: the destination of log lines. -/
def ERRLOGDEST (cfg : Config) : Dest :=
  if cfg.loggingSyslog then Dest.syslogErr else Dest.stdout

/-- Lines 167-171: `ORGANISATION ": "` when an organisation is defined, empty
otherwise. -/
def ORGPREFIX (cfg : Config) : String :=
  match cfg.organisation with
  | some org => org ++ ": "
  | none => ""

/-- An argument passed through the variable argument list. -/
inductive Arg
  | str (s : String)
  | int (n : Int)
deriving DecidableEq

/-- The output of the `printf` family for a format and its arguments, for the
directives the header uses (`%s`, `%d`) and `%%`.  Any other directive, or a
directive without an argument of its type, gives `none`. -/
def cFormat : List Char → List Arg → Option (List Char)
  | [], _ => some []
  | c :: fmt, args =>
    if c = '%' then
      match fmt with
      | [] => none
      | d :: rest =>
        if d = '%' then (cFormat rest args).map (fun out => '%' :: out)
        else
          match args with
          | Arg.str s :: more =>
            if d = 's' then (cFormat rest more).map (fun out => s.toList ++ out) else none
          | Arg.int n :: more =>
            if d = 'd' then (cFormat rest more).map (fun out => (toString n).toList ++ out)
            else none
          | [] => none
    else (cFormat fmt args).map (fun out => c :: out)

/-- The text written by one call of the print function. -/
def cprintf (fmt : String) (args : List Arg) : Option String :=
  (cFormat fmt.toList args).map String.mk

/-- Lines 142-151: `ERRLOGPRINTF(ERRLOGDEST, fmt, ...)` is
`fprintf(stdout, fmt, ...)` or `syslog(LOG_ERR, fmt, ...)`. -/
def ERRLOGPRINTF {σ : Type} (cfg : Config) (fmt : String) (args : List Arg)
    (w : World σ) : World σ :=
  { w with log := w.log ++ [{ dest := ERRLOGDEST cfg, text := cprintf fmt args }] }

/-- Escapes inserted when a spelling is put between double quotes: a
backslash before every double quote and every backslash. -/
def cEscape : List Char → List Char
  | [] => []
  | c :: cs =>
    if c = Char.ofNat 34 ∨ c = Char.ofNat 92 then Char.ofNat 92 :: c :: cEscape cs
    else c :: cEscape cs

/-- The spelling of the string literal that `#exp` produces for an expression
spelled `text`. -/
def stringLiteralSpelling (text : String) : String :=
  String.mk (Char.ofNat 34 :: (cEscape text.toList ++ [Char.ofNat 34]))

/-- Lines 197-204.  `exp` is the value of the first argument (the checks pass
their temporary), `str` the spelling of the second argument and `context` the
spelling of the third; `#str` and `#context` are the strings of those
spellings. -/
def CHECK {σ : Type} (cfg : Config) (site : Site) (exp : Bool) (str context : String)
    (w : World σ) : World σ :=
  if !exp then
    ERRLOGPRINTF cfg
      (ORGPREFIX cfg ++ context ++ " failed - %s:%s:%d, " ++ str ++ " is false\n")
      [Arg.str site.file, Arg.str site.func, Arg.int site.line] w
  else w

/-- Lines 206-211: log unconditionally, then `goto EXCEPTION`. -/
def FAIL {σ : Type} (cfg : Config) (site : Site) (w : World σ) : Flow × World σ :=
  (Flow.jump EXCEPTION,
    ERRLOGPRINTF cfg (ORGPREFIX cfg ++ "failed - %s:%s:%d\n")
      [Arg.str site.file, Arg.str site.func, Arg.int site.line] w)

/-- The `assert` of `<assert.h>`: `((void)0)` under `NDEBUG`; otherwise the
argument is evaluated and, when it compares equal to 0, a diagnostic naming
the call site is written to the standard error stream and `abort` is called. -/
def cAssert {σ : Type} (cfg : Config) (site : Site) (g : Guard σ) (w : World σ) :
    Flow × World σ :=
  if cfg.ndebug then (Flow.next, w)
  else if (evalExp g w).1 = 0 then (Flow.abort site, (evalExp g w).2)
  else (Flow.next, (evalExp g w).2)

/-! ## The contract checks (lines 238-371)

Each check has three variants: under `DBC_USEASSERTS` (lines 240-278), with
`DBC_LOGGING` true (lines 283-329) and with `DBC_LOGGING` false
(lines 333-367). -/

/-- The check `PRECONDITION(exp)` (lines 240, 283 and 333). -/
def PRECONDITION {σ : Type} (cfg : Config) (site : Site) (g : Guard σ) (w : World σ) :
    Flow × World σ :=
  if cfg.useAsserts then
    -- assert((exp)); if (0) { goto EXCEPTION; }
    andThen (cAssert cfg site g w) fun w1 =>
      if false then (Flow.jump EXCEPTION, w1) else (Flow.next, w1)
  else if DBC_LOGGING cfg then
    -- dbc_temp_var_do_not_use = (exp) ? true : false;
    let w1 := (evalExp g w).2
    let dbc_temp_var_do_not_use : Bool := if (evalExp g w).1 ≠ 0 then true else false
    -- CHECK( dbc_temp_var_do_not_use, #exp, PRECONDITION);
    let w2 := CHECK cfg site dbc_temp_var_do_not_use (stringLiteralSpelling g.text)
      "PRECONDITION" w1
    if !dbc_temp_var_do_not_use then (Flow.jump EXCEPTION, w2) else (Flow.next, w2)
  else
    -- if (!(exp)) { goto EXCEPTION; }
    if (evalExp g w).1 = 0 then (Flow.jump EXCEPTION, (evalExp g w).2)
    else (Flow.next, (evalExp g w).2)

/-- The check `MIDCONDITION(exp)` (lines 250, 295 and 342). -/
def MIDCONDITION {σ : Type} (cfg : Config) (site : Site) (g : Guard σ) (w : World σ) :
    Flow × World σ :=
  if cfg.useAsserts then
    andThen (cAssert cfg site g w) fun w1 =>
      if false then (Flow.jump EXCEPTION, w1) else (Flow.next, w1)
  else if DBC_LOGGING cfg then
    let w1 := (evalExp g w).2
    let dbc_temp_var_do_not_use : Bool := if (evalExp g w).1 ≠ 0 then true else false
    let w2 := CHECK cfg site dbc_temp_var_do_not_use (stringLiteralSpelling g.text)
      "MIDCONDITION" w1
    if !dbc_temp_var_do_not_use then (Flow.jump EXCEPTION, w2) else (Flow.next, w2)
  else
    if (evalExp g w).1 = 0 then (Flow.jump EXCEPTION, (evalExp g w).2)
    else (Flow.next, (evalExp g w).2)

/-- The check `MIDCONDITION_EX(exp,where)` (lines 260, 307 and 351): the jump
target is `EXCEPTION##where` and the log context is `MIDCONDITION`. -/
def MIDCONDITION_EX {σ : Type} (cfg : Config) (site : Site) (g : Guard σ) (wh : String)
    (w : World σ) : Flow × World σ :=
  if cfg.useAsserts then
    andThen (cAssert cfg site g w) fun w1 =>
      if false then (Flow.jump (tokenPaste "EXCEPTION" wh), w1) else (Flow.next, w1)
  else if DBC_LOGGING cfg then
    let w1 := (evalExp g w).2
    let dbc_temp_var_do_not_use : Bool := if (evalExp g w).1 ≠ 0 then true else false
    let w2 := CHECK cfg site dbc_temp_var_do_not_use (stringLiteralSpelling g.text)
      "MIDCONDITION" w1
    if !dbc_temp_var_do_not_use then (Flow.jump (tokenPaste "EXCEPTION" wh), w2)
    else (Flow.next, w2)
  else
    if (evalExp g w).1 = 0 then (Flow.jump (tokenPaste "EXCEPTION" wh), (evalExp g w).2)
    else (Flow.next, (evalExp g w).2)

/-- The check `POSTCONDITION(exp)` (lines 270, 319 and 360). -/
def POSTCONDITION {σ : Type} (cfg : Config) (site : Site) (g : Guard σ) (w : World σ) :
    Flow × World σ :=
  if cfg.useAsserts then
    andThen (cAssert cfg site g w) fun w1 =>
      if false then (Flow.jump EXCEPTION, w1) else (Flow.next, w1)
  else if DBC_LOGGING cfg then
    let w1 := (evalExp g w).2
    let dbc_temp_var_do_not_use : Bool := if (evalExp g w).1 ≠ 0 then true else false
    let w2 := CHECK cfg site dbc_temp_var_do_not_use (stringLiteralSpelling g.text)
      "POSTCONDITION" w1
    if !dbc_temp_var_do_not_use then (Flow.jump EXCEPTION, w2) else (Flow.next, w2)
  else
    if (evalExp g w).1 = 0 then (Flow.jump EXCEPTION, (evalExp g w).2)
    else (Flow.next, (evalExp g w).2)

/-- The four check operations of the header; `midEx` carries the handler
name given as second argument. -/
inductive CheckKind
  | pre
  | mid
  | midEx (wh : String)
  | post
deriving DecidableEq

/-- One execution of a check operation. -/
def runCheck {σ : Type} (cfg : Config) (site : Site) (k : CheckKind) (g : Guard σ)
    (w : World σ) : Flow × World σ :=
  match k with
  | CheckKind.pre => PRECONDITION cfg site g w
  | CheckKind.mid => MIDCONDITION cfg site g w
  | CheckKind.midEx wh => MIDCONDITION_EX cfg site g wh w
  | CheckKind.post => POSTCONDITION cfg site g w

/-- The log context a check operation passes to `CHECK`. -/
def CheckKind.context : CheckKind → String
  | CheckKind.pre => "PRECONDITION"
  | CheckKind.mid => "MIDCONDITION"
  | CheckKind.midEx _ => "MIDCONDITION"
  | CheckKind.post => "POSTCONDITION"

/-- The label a check operation jumps to when it fails. -/
def CheckKind.target : CheckKind → String
  | CheckKind.midEx wh => tokenPaste "EXCEPTION" wh
  | _ => EXCEPTION

/-! ## Conditional resource releasers (lines 378-431) -/

/-- A release action performed on a handle value. -/
inductive Release
  | free (p : Int)
  | close (fd : Int)
  | fclose (f : Int)
  | release (o : Int)
deriving DecidableEq

/-- A handle variable together with the release actions performed so far.
The null sentinel (`NULL`, `nil`) is 0. -/
structure Res where
  handle : Int
  released : List Release
deriving DecidableEq

/-- Lines 379-387: `if ((x)) { free((x)); } x = NULL;`. -/
def FREEIF (r : Res) : Res :=
  let r1 := if r.handle ≠ 0 then { r with released := r.released ++ [Release.free r.handle] }
    else r
  { r1 with handle := 0 }

/-- Lines 391-399: `if ((fd)) { close((fd)); } fd = NULL;`. -/
def CLOSEFDIF (r : Res) : Res :=
  let r1 := if r.handle ≠ 0 then { r with released := r.released ++ [Release.close r.handle] }
    else r
  { r1 with handle := 0 }

/-- Lines 403-411: `if ((f)) { fclose((f)); } f = NULL;`. -/
def CLOSEFILEIF (r : Res) : Res :=
  let r1 := if r.handle ≠ 0 then { r with released := r.released ++ [Release.fclose r.handle] }
    else r
  { r1 with handle := 0 }

/-- Lines 415-420: `[o release]; o = nil;`. -/
def RELEASE (r : Res) : Res :=
  { handle := 0, released := r.released ++ [Release.release r.handle] }

/-- Lines 424-431: `if ((o)) { RELEASE(o); }`. -/
def RELEASEIF (r : Res) : Res :=
  if r.handle ≠ 0 then RELEASE r else r

/-- The four conditional releasers. -/
inductive Releaser
  | freeIf
  | closeFdIf
  | closeFileIf
  | releaseIf
deriving DecidableEq

/-- One call of a conditional releaser. -/
def Releaser.run : Releaser → Res → Res
  | Releaser.freeIf => FREEIF
  | Releaser.closeFdIf => CLOSEFDIF
  | Releaser.closeFileIf => CLOSEFILEIF
  | Releaser.releaseIf => RELEASEIF

/-- The release action of each releaser on a handle value. -/
def Releaser.action : Releaser → Int → Release
  | Releaser.freeIf => Release.free
  | Releaser.closeFdIf => Release.close
  | Releaser.closeFileIf => Release.fclose
  | Releaser.releaseIf => Release.release

/-! ## Sample inputs -/

/-- A guarded expression with a side effect: it yields `v` and increments a
counter, like `(n++, v)`. -/
def countingGuard (text : String) (v : Int) : Guard Nat :=
  { text := text, run := fun n => (v, n + 1) }

/-- A guarded expression without side effects that yields `v`. -/
def pureGuard (text : String) (v : Int) : Guard Nat :=
  { text := text, run := fun n => (v, n) }

/-- The configuration of `dbctest.c` built without any flag: dispatch with
logging to the console, organisation `damco`. -/
def cfgLogging : Config :=
  { useAsserts := false, ndebug := false, loggingSyslog := false, organisation := some "damco" }

/-- The configuration of `dbctest.c` built with `NDEBUG`: dispatch without logging. -/
def cfgNoLogging : Config :=
  { useAsserts := false, ndebug := true, loggingSyslog := false, organisation := some "damco" }

/-- The configuration of `dbctest.c` built with `DBC_USEASSERTS`. -/
def cfgAsserts : Config :=
  { useAsserts := true, ndebug := false, loggingSyslog := false, organisation := some "damco" }

/-- The configuration of `dbctest.c` built with `DBC_USEASSERTS` and `NDEBUG`. -/
def cfgAssertsNdebug : Config :=
  { useAsserts := true, ndebug := true, loggingSyslog := false, organisation := some "damco" }

/-- A call site in `dbctest.c`. -/
def sampleSite : Site := { file := "dbctest.c", func := "PRECONDITION_Fail", line := 42 }

/-- An initial state: counter 0, nothing evaluated, nothing logged. -/
def world0 : World Nat := { vars := 0, evals := 0, log := [] }

/-! ## The line formats of the specification -/

/-- How a call of a function ends: it returns a value, the process was
terminated by `assert`, or the body jumps to a label the function does not
declare.  The state carried is the evaluation count and the log. -/
inductive Outcome (ρ : Type)
  | returned (value : ρ) (g : World Unit)
  | aborted (site : Site) (g : World Unit)
  | undeclared (label : String) (g : World Unit)
deriving DecidableEq

/-- The value a call returned, if it returned. -/
def Outcome.result {ρ : Type} : Outcome ρ → Option ρ
  | Outcome.returned value _ => some value
  | Outcome.aborted _ _ => none
  | Outcome.undeclared _ _ => none

/-- The log at the end of a call. -/
def Outcome.log {ρ : Type} : Outcome ρ → List LogEntry
  | Outcome.returned _ g => g.log
  | Outcome.aborted _ g => g.log
  | Outcome.undeclared _ g => g.log

/-- The state of a function at entry: its locals initialised, the evaluation
count and the log of the caller. -/
def enter {σ : Type} (locals : σ) (g : World Unit) : World σ :=
  { vars := locals, evals := g.evals, log := g.log }

/-- The evaluation count and the log of a function, handed back to the caller. -/
def globals {σ : Type} (w : World σ) : World Unit :=
  { vars := (), evals := w.evals, log := w.log }

/-- The end of a body whose main path ends in `return ret;` and whose only
handler is `EXCEPTION: return ret;`. -/
def leave {σ ρ : Type} (r : Flow × World σ) (ret : σ → ρ) : Outcome ρ :=
  match r.1 with
  | Flow.next => Outcome.returned (ret r.2.vars) (globals r.2)
  | Flow.jump label =>
    if label = EXCEPTION then Outcome.returned (ret r.2.vars) (globals r.2)
    else Outcome.undeclared label (globals r.2)
  | Flow.abort site => Outcome.aborted site (globals r.2)

/-- The configuration of `dbctest.c`, which defines `ORGANISATION` as `damco`
before it includes the header (line 4). -/
def dbctestConfig (useAsserts ndebug loggingSyslog : Bool) : Config :=
  { useAsserts := useAsserts, ndebug := ndebug, loggingSyslog := loggingSyslog,
    organisation := some "damco" }

/-- A call site in `dbctest.c`. -/
def dbctestSite (func : String) (line : Nat) : Site :=
  { file := "dbctest.c", func := func, line := line }

/-- The locals of `ALL_Success`. -/
structure AllSuccessLocals where
  ret : Bool
  newString : Int
deriving DecidableEq

/-- Lines 10-34 of `dbctest.c`.  `qString` is the pointer passed in and `dup`
the pointer `strdup( kTestString)` returns (0 when the allocation fails). -/
def ALL_Success (cfg : Config) (qString dup : Int) (g : World Unit) : Outcome Bool :=
  -- bool ret = false; char* newString = NULL;
  let w0 : World AllSuccessLocals := enter { ret := false, newString := 0 } g
  leave
    ( -- PRECONDITION( qString);
     andThen (PRECONDITION cfg (dbctestSite "ALL_Success" 14)
        { text := "qString", run := fun s => (qString, s) } w0) fun w1 =>
     -- newString = strdup( kTestString);
     andThen (Flow.next, { w1 with vars := { w1.vars with newString := dup } }) fun w2 =>
     -- MIDCONDITION( newString);
     andThen (MIDCONDITION cfg (dbctestSite "ALL_Success" 17)
        { text := "newString", run := fun s => (s.newString, s) } w2) fun w3 =>
     -- switch (ret) { case true: FAIL; break; case false: break; }
     andThen (if w3.vars.ret = true then FAIL cfg (dbctestSite "ALL_Success" 21) w3
        else (Flow.next, w3)) fun w4 =>
     -- ret = true;
     andThen (Flow.next, { w4 with vars := { w4.vars with ret := true } }) fun w5 =>
     -- POSTCONDITION( ret);
     POSTCONDITION cfg (dbctestSite "ALL_Success" 29)
        { text := "ret", run := fun s => (if s.ret = true then 1 else 0, s) } w5)
    (fun s => s.ret)

/-- Lines 39-49 of `dbctest.c`; the only local is `ret`. -/
def PRECONDITION_Fail (cfg : Config) (_qString : Int) (g : World Unit) : Outcome Bool :=
  -- bool ret = false;
  let w0 : World Bool := enter false g
  leave
    ( -- PRECONDITION( NULL);
     andThen (PRECONDITION cfg (dbctestSite "PRECONDITION_Fail" 42)
        { text := "NULL", run := fun s => (0, s) } w0) fun w1 =>
     -- ret = true;
     (Flow.next, { w1 with vars := true }))
    (fun ret => ret)

/-- Lines 54-64 of `dbctest.c`. -/
def MIDCONDITION_Fail (cfg : Config) (_qString : Int) (g : World Unit) : Outcome Bool :=
  let w0 : World Bool := enter false g
  leave
    ( -- MIDCONDITION( NULL);
     andThen (MIDCONDITION cfg (dbctestSite "MIDCONDITION_Fail" 57)
        { text := "NULL", run := fun s => (0, s) } w0) fun w1 =>
     (Flow.next, { w1 with vars := true }))
    (fun ret => ret)

/-- Lines 69-79 of `dbctest.c`. -/
def POSTCONDITION_Fail (cfg : Config) (_qString : Int) (g : World Unit) : Outcome Bool :=
  let w0 : World Bool := enter false g
  leave
    ( -- POSTCONDITION( false);
     andThen (POSTCONDITION cfg (dbctestSite "POSTCONDITION_Fail" 72)
        { text := "false", run := fun s => (0, s) } w0) fun w1 =>
     (Flow.next, { w1 with vars := true }))
    (fun ret => ret)

/-- Lines 84-98 of `dbctest.c`. -/
def FAIL_Fail (cfg : Config) (_qString : Int) (g : World Unit) : Outcome Bool :=
  let w0 : World Bool := enter false g
  leave
    ( -- switch (ret) { default: FAIL; break; }
     andThen (FAIL cfg (dbctestSite "FAIL_Fail" 89) w0) fun w1 =>
     (Flow.next, { w1 with vars := true }))
    (fun ret => ret)

/-- Under `DBC_USEASSERTS` a check is the `assert` alone: the jump sits under
`if (0)`. -/
theorem runCheck_useAsserts {σ : Type} (cfg : Config) (site : Site) (k : CheckKind)
    (g : Guard σ) (w : World σ) (hA : cfg.useAsserts = true) :
    runCheck cfg site k g w = cAssert cfg site g w := by
  cases k <;>
    simp only [runCheck, PRECONDITION, MIDCONDITION, MIDCONDITION_EX, POSTCONDITION, hA,
      if_true, andThen, cAssert] <;>
    split_ifs <;> simp_all

/-- In the dispatch variants a check whose expression is non-zero only
evaluates the expression. -/
theorem runCheck_dispatch_pass {σ : Type} (cfg : Config) (site : Site) (k : CheckKind)
    (g : Guard σ) (w : World σ) (hA : cfg.useAsserts = false)
    (hv : (g.run w.vars).1 ≠ 0) :
    runCheck cfg site k g w = (Flow.next, (evalExp g w).2) := by
  cases k <;>
    simp [runCheck, PRECONDITION, MIDCONDITION, MIDCONDITION_EX, POSTCONDITION, hA,
      CHECK, evalExp, hv]

/-- In the dispatch variants a check whose expression is zero jumps to its
target, after `CHECK` has logged when `DBC_LOGGING` is true. -/
theorem runCheck_dispatch_fail {σ : Type} (cfg : Config) (site : Site) (k : CheckKind)
    (g : Guard σ) (w : World σ) (hA : cfg.useAsserts = false)
    (hv : (g.run w.vars).1 = 0) :
    runCheck cfg site k g w =
      (Flow.jump k.target,
        if cfg.ndebug = true then (evalExp g w).2
        else CHECK cfg site false (stringLiteralSpelling g.text) k.context (evalExp g w).2) := by
  cases k <;> cases hN : cfg.ndebug <;>
    simp [runCheck, PRECONDITION, MIDCONDITION, MIDCONDITION_EX, POSTCONDITION, hA, hN,
      DBC_LOGGING, evalExp, hv, CheckKind.target, CheckKind.context]

/-! ## The formatter on the formats of the header -/

/-- The print function only appends to the log. -/
theorem ERRLOGPRINTF_vars_evals {σ : Type} (cfg : Config) (fmt : String) (args : List Arg)
    (w : World σ) :
    (ERRLOGPRINTF cfg fmt args w).vars = w.vars ∧
      (ERRLOGPRINTF cfg fmt args w).evals = w.evals := by
  simp [ERRLOGPRINTF]

/-- The logging step `CHECK` changes neither the variables nor the evaluation count. -/
theorem CHECK_vars_evals {σ : Type} (cfg : Config) (site : Site) (b : Bool)
    (str context : String) (w : World σ) :
    (CHECK cfg site b str context w).vars = w.vars ∧
      (CHECK cfg site b str context w).evals = w.evals := by
  cases b <;> simp [CHECK, ERRLOGPRINTF]

/-- In the dispatch variants the expression is evaluated once, whatever its value. -/
theorem runCheck_dispatch_state {σ : Type} (cfg : Config) (site : Site) (k : CheckKind)
    (g : Guard σ) (w : World σ) (hA : cfg.useAsserts = false) :
    (runCheck cfg site k g w).2.evals = w.evals + 1 ∧
      (runCheck cfg site k g w).2.vars = (g.run w.vars).2 := by
  by_cases hv : (g.run w.vars).1 = 0
  · rw [runCheck_dispatch_fail cfg site k g w hA hv]
    by_cases hN : cfg.ndebug = true
    · simp [hN, evalExp]
    · simp [hN, (CHECK_vars_evals cfg site false _ _ _).1,
        (CHECK_vars_evals cfg site false _ _ _).2, evalExp]
  · rw [runCheck_dispatch_pass cfg site k g w hA hv]
    simp [evalExp]

/-- C1, as stated, fails: with `DBC_USEASSERTS` and `NDEBUG` both defined the
guarded expression of a check is not evaluated at all, so "exactly once in
every build mode" does not hold. -/
theorem C1_not_evaluated_under_asserts_ndebug :
    ¬ ∀ (cfg : Config) (site : Site) (k : CheckKind) (g : Guard Nat) (w : World Nat),
        (runCheck cfg site k g w).2.evals = w.evals + 1 := by
  intro h
  have h0 := h cfgAssertsNdebug sampleSite CheckKind.pre (countingGuard "NULL" 0) world0
  revert h0
  decide

/-- C1, amended: for each of the four checks and either outcome of the
expression, the guarded expression is evaluated exactly once in both dispatch
variants and under `DBC_USEASSERTS` without `NDEBUG` (its side effects happen
once); under `DBC_USEASSERTS` with `NDEBUG` it is evaluated zero times and the
variables are untouched. -/
theorem C1_evaluated_once_except_asserts_ndebug {σ : Type} (cfg : Config) (site : Site)
    (k : CheckKind) (g : Guard σ) (w : World σ) :
    (runCheck cfg site k g w).2.evals =
        (if cfg.useAsserts = true ∧ cfg.ndebug = true then w.evals else w.evals + 1) ∧
      (runCheck cfg site k g w).2.vars =
        (if cfg.useAsserts = true ∧ cfg.ndebug = true then w.vars else (g.run w.vars).2) := by
  cases hA : cfg.useAsserts
  · simpa using runCheck_dispatch_state cfg site k g w hA
  · rw [runCheck_useAsserts cfg site k g w hA]
    cases hN : cfg.ndebug
    · by_cases hv : (g.run w.vars).1 = 0 <;> simp [cAssert, hN, evalExp, hv]
    · simp [cAssert, hN]

/-! ## Failing and passing checks in the dispatch variants -/

/-- C2, at a failing input: `PRECONDITION(x % d)` with `x % d` equal to 0,
compiled with logging.  `CHECK` puts the expression text inside the format
string, so the text `% d` is read as a directive for which no argument was
passed: the check writes one log entry whose content is not a line holding
the expression text, and then jumps to `EXCEPTION`. -/
theorem C2_percent_in_expression_text :
    PRECONDITION cfgLogging { file := "dbctest.c", func := "f", line := 14 }
        (pureGuard "x % d" 0) world0 =
      (Flow.jump EXCEPTION,
        { vars := 0, evals := 1, log := [{ dest := Dest.stdout, text := none }] }) := by
  decide

/-- C3: in both dispatch variants (logging or not), each of the four checks
whose expression evaluates to a non-zero value writes nothing to the log and
jumps to no handler: control falls through to the next statement, and the
state is exactly the state left by evaluating the expression once (for an
expression without side effects, the state before the check). -/
theorem C3_passing_check_is_silent {σ : Type} (cfg : Config) (site : Site) (k : CheckKind)
    (g : Guard σ) (w : World σ) (hA : cfg.useAsserts = false)
    (hv : (g.run w.vars).1 ≠ 0) :
    (runCheck cfg site k g w).1 = Flow.next ∧
      (runCheck cfg site k g w).2.log = w.log ∧
      (runCheck cfg site k g w).2.vars = (g.run w.vars).2 := by
  rw [runCheck_dispatch_pass cfg site k g w hA hv]
  simp [evalExp]

/-- C3 at `MIDCONDITION_EX(newPtr, SPECIAL)` with `newPtr` non-null, with and
without logging. -/
theorem C3_passing_check_is_silent_witness :
    (cfgLogging.useAsserts = false ∧ ((pureGuard "newPtr" 4096).run world0.vars).1 ≠ 0) ∧
      ((runCheck cfgLogging sampleSite (CheckKind.midEx "SPECIAL")
            (pureGuard "newPtr" 4096) world0).1 = Flow.next ∧
        (runCheck cfgLogging sampleSite (CheckKind.midEx "SPECIAL")
            (pureGuard "newPtr" 4096) world0).2.log = world0.log ∧
        (runCheck cfgLogging sampleSite (CheckKind.midEx "SPECIAL")
            (pureGuard "newPtr" 4096) world0).2.vars =
          ((pureGuard "newPtr" 4096).run world0.vars).2) :=
  ⟨⟨by decide, by decide⟩,
    C3_passing_check_is_silent cfgLogging sampleSite (CheckKind.midEx "SPECIAL")
      (pureGuard "newPtr" 4096) world0 (by decide) (by decide)⟩

/-! ## Handler routing -/

/-- A named handler label is never the default handler label. -/
theorem EXCEPTION_EX_ne_EXCEPTION (wh : String) (hw : wh ≠ "") : EXCEPTION_EX wh ≠ EXCEPTION := by
  have hne : "EXCEPTION" ++ wh ≠ "EXCEPTION" := by
    intro e
    apply hw
    have e2 := congrArg String.data e
    rw [String.data_append] at e2
    exact String.ext (List.append_right_eq_self.mp e2)
  have hne2 : "EXCEPTION" ++ wh ≠ "errorLabel" := by
    intro e
    have e2 := congrArg String.data e
    rw [String.data_append] at e2
    have e3 := congrArg List.head? e2
    revert e3
    simp
  simp [EXCEPTION_EX, tokenPaste, rescan, hne, EXCEPTION, hne2]

/-- Two different handler names give two different handler labels. -/
theorem EXCEPTION_EX_injective (wh other : String) (hw : wh ≠ "") (ho : other ≠ "")
    (hne : other ≠ wh) : EXCEPTION_EX other ≠ EXCEPTION_EX wh := by
  have nonempty : ∀ x : String, x ≠ "" → "EXCEPTION" ++ x ≠ "EXCEPTION" := by
    intro x hx e
    apply hx
    have e2 := congrArg String.data e
    rw [String.data_append] at e2
    exact String.ext (List.append_right_eq_self.mp e2)
  simp only [EXCEPTION_EX, tokenPaste, rescan, nonempty wh hw, nonempty other ho, if_false]
  intro e
  apply hne
  have e2 := congrArg String.data e
  rw [String.data_append, String.data_append] at e2
  exact String.ext (List.append_cancel_left e2)

/-- C4: in both dispatch variants, for every (non-empty) handler name `wh`, a
failing `MIDCONDITION_EX(e, wh)` jumps to exactly the label `EXCEPTION_EX(wh)`
declares, which differs from the default label `EXCEPTION` and from the label
of every other handler name; a failing `PRECONDITION`, `MIDCONDITION` or
`POSTCONDITION`, and `FAIL`, jump to the default label `EXCEPTION`, which is
the label of no named handler. -/
theorem C4_named_handler_routing {σ : Type} (cfg : Config) (site : Site) (g : Guard σ)
    (wh : String) (w : World σ) (hA : cfg.useAsserts = false)
    (hv : (g.run w.vars).1 = 0) (hw : wh ≠ "") :
    (MIDCONDITION_EX cfg site g wh w).1 = Flow.jump (EXCEPTION_EX wh) ∧
      EXCEPTION_EX wh ≠ EXCEPTION ∧
      (∀ other : String, other ≠ "" → other ≠ wh → EXCEPTION_EX other ≠ EXCEPTION_EX wh) ∧
      (PRECONDITION cfg site g w).1 = Flow.jump EXCEPTION ∧
      (MIDCONDITION cfg site g w).1 = Flow.jump EXCEPTION ∧
      (POSTCONDITION cfg site g w).1 = Flow.jump EXCEPTION ∧
      (FAIL cfg site w).1 = Flow.jump EXCEPTION ∧
      (∀ other : String, other ≠ "" → EXCEPTION ≠ EXCEPTION_EX other) := by
  have hEx := runCheck_dispatch_fail cfg site (CheckKind.midEx wh) g w hA hv
  have hPre := runCheck_dispatch_fail cfg site CheckKind.pre g w hA hv
  have hMid := runCheck_dispatch_fail cfg site CheckKind.mid g w hA hv
  have hPost := runCheck_dispatch_fail cfg site CheckKind.post g w hA hv
  simp only [runCheck] at hEx hPre hMid hPost
  refine ⟨?_, EXCEPTION_EX_ne_EXCEPTION wh hw,
    fun other ho hne => EXCEPTION_EX_injective wh other hw ho hne, ?_, ?_, ?_, rfl,
    fun other ho e => EXCEPTION_EX_ne_EXCEPTION other ho e.symm⟩
  · rw [hEx]; rfl
  · rw [hPre]; rfl
  · rw [hMid]; rfl
  · rw [hPost]; rfl

/-- C4 at the handler name `SPECIAL` of the header's usage example, with
logging. -/
theorem C4_named_handler_routing_witness :
    (cfgLogging.useAsserts = false ∧ ((pureGuard "result == newPtr" 0).run world0.vars).1 = 0 ∧
        "SPECIAL" ≠ "") ∧
      (MIDCONDITION_EX cfgLogging sampleSite (pureGuard "result == newPtr" 0) "SPECIAL"
          world0).1 = Flow.jump (EXCEPTION_EX "SPECIAL") ∧
      EXCEPTION_EX "SPECIAL" ≠ EXCEPTION ∧
      (∀ other : String, other ≠ "" → other ≠ "SPECIAL" →
        EXCEPTION_EX other ≠ EXCEPTION_EX "SPECIAL") ∧
      (PRECONDITION cfgLogging sampleSite (pureGuard "result == newPtr" 0) world0).1 =
        Flow.jump EXCEPTION ∧
      (MIDCONDITION cfgLogging sampleSite (pureGuard "result == newPtr" 0) world0).1 =
        Flow.jump EXCEPTION ∧
      (POSTCONDITION cfgLogging sampleSite (pureGuard "result == newPtr" 0) world0).1 =
        Flow.jump EXCEPTION ∧
      (FAIL cfgLogging sampleSite world0).1 = Flow.jump EXCEPTION ∧
      (∀ other : String, other ≠ "" → EXCEPTION ≠ EXCEPTION_EX other) :=
  ⟨⟨by decide, by decide, by decide⟩,
    C4_named_handler_routing cfgLogging sampleSite (pureGuard "result == newPtr" 0) "SPECIAL"
      world0 (by decide) (by decide) (by decide)⟩

/-- C5: for every check operation (any handler name) and every value of the
guarded expression, the control outcome is the same in every dispatch
variant, so the variant without logging (`NDEBUG`) and the variant with
logging agree: the same choice between falling through and jumping and the
same target label; the variables and the evaluation count agree too. -/
theorem C5_control_independent_of_logging {σ : Type} (cfgN cfgL : Config) (site : Site)
    (k : CheckKind) (g : Guard σ) (w : World σ)
    (hAN : cfgN.useAsserts = false) (hAL : cfgL.useAsserts = false) :
    (runCheck cfgN site k g w).1 = (runCheck cfgL site k g w).1 ∧
      (runCheck cfgN site k g w).2.vars = (runCheck cfgL site k g w).2.vars ∧
      (runCheck cfgN site k g w).2.evals = (runCheck cfgL site k g w).2.evals := by
  refine ⟨?_, ?_, ?_⟩
  · by_cases hv : (g.run w.vars).1 = 0
    · rw [runCheck_dispatch_fail cfgN site k g w hAN hv,
        runCheck_dispatch_fail cfgL site k g w hAL hv]
    · rw [runCheck_dispatch_pass cfgN site k g w hAN hv,
        runCheck_dispatch_pass cfgL site k g w hAL hv]
  · rw [(runCheck_dispatch_state cfgN site k g w hAN).2,
      (runCheck_dispatch_state cfgL site k g w hAL).2]
  · rw [(runCheck_dispatch_state cfgN site k g w hAN).1,
      (runCheck_dispatch_state cfgL site k g w hAL).1]

/-- C5 at a failing `MIDCONDITION_EX(NULL, SPECIAL)` with a side effect,
compiled with `NDEBUG` and without. -/
theorem C5_control_independent_of_logging_witness :
    (cfgNoLogging.useAsserts = false ∧ cfgLogging.useAsserts = false ∧
        cfgNoLogging.ndebug = true ∧ cfgLogging.ndebug = false) ∧
      (runCheck cfgNoLogging sampleSite (CheckKind.midEx "SPECIAL") (countingGuard "NULL" 0)
          world0).1 =
        (runCheck cfgLogging sampleSite (CheckKind.midEx "SPECIAL") (countingGuard "NULL" 0)
          world0).1 ∧
      (runCheck cfgNoLogging sampleSite (CheckKind.midEx "SPECIAL") (countingGuard "NULL" 0)
          world0).2.vars =
        (runCheck cfgLogging sampleSite (CheckKind.midEx "SPECIAL") (countingGuard "NULL" 0)
          world0).2.vars ∧
      (runCheck cfgNoLogging sampleSite (CheckKind.midEx "SPECIAL") (countingGuard "NULL" 0)
          world0).2.evals =
        (runCheck cfgLogging sampleSite (CheckKind.midEx "SPECIAL") (countingGuard "NULL" 0)
          world0).2.evals :=
  ⟨⟨by decide, by decide, by decide, by decide⟩,
    C5_control_independent_of_logging cfgNoLogging cfgLogging sampleSite
      (CheckKind.midEx "SPECIAL") (countingGuard "NULL" 0) world0 (by decide) (by decide)⟩

/-! ## Logging disabled -/

/-- Without logging (`NDEBUG`, no `DBC_USEASSERTS`) none of the four checks
writes to the log, whatever the value of the expression. -/
theorem runCheck_silent_without_logging {σ : Type} (cfg : Config) (site : Site)
    (k : CheckKind) (g : Guard σ) (w : World σ) (hA : cfg.useAsserts = false)
    (hN : cfg.ndebug = true) :
    (runCheck cfg site k g w).2.log = w.log := by
  by_cases hv : (g.run w.vars).1 = 0
  · rw [runCheck_dispatch_fail cfg site k g w hA hv]
    simp [hN, evalExp]
  · rw [runCheck_dispatch_pass cfg site k g w hA hv]
    simp [evalExp]

/-- C6, at a failing input: `FAIL` at line 89 of `dbctest.c` compiled with
`NDEBUG`.  `FAIL` does not consult `DBC_LOGGING`: it still writes its line to
the console, so the log is not empty although logging is disabled. -/
theorem C6_FAIL_logs_under_ndebug :
    FAIL cfgNoLogging { file := "dbctest.c", func := "FAIL_Fail", line := 89 } world0 =
      (Flow.jump EXCEPTION,
        { vars := 0, evals := 0,
          log := [{ dest := Dest.stdout,
                    text := some "damco: failed - dbctest.c:FAIL_Fail:89\n" }] }) := by
  decide

/-! ## Conditional resource releasers -/

/-- A conditional releaser nulls the handle and records its release action
exactly when the handle was not null. -/
theorem releaser_run_eq (rel : Releaser) (r : Res) :
    rel.run r =
      { handle := 0,
        released := if r.handle ≠ 0 then r.released ++ [rel.action r.handle]
          else r.released } := by
  cases rel <;> by_cases h : r.handle = 0 <;>
    simp [Releaser.run, Releaser.action, FREEIF, CLOSEFDIF, CLOSEFILEIF, RELEASEIF, RELEASE, h]
  cases r
  simp_all

/-- C7: for each conditional releaser and every handle value, the release
action of its kind is performed exactly once, on the original handle value,
when the handle is non-null, and not at all when it is null; in both cases
the handle is the null sentinel afterwards. -/
theorem C7_releaser_releases_once_and_nulls (rel : Releaser) (r : Res) :
    (rel.run r).released =
        (if r.handle ≠ 0 then r.released ++ [rel.action r.handle] else r.released) ∧
      (rel.run r).handle = 0 := by
  rw [releaser_run_eq rel r]
  exact ⟨rfl, rfl⟩

/-- C8: each conditional releaser is idempotent: for every initial handle
value two calls in sequence leave the state one call leaves, the handle is
already the null sentinel after the first call, the second call performs no
release action, and so at most one release action happens in total. -/
theorem C8_releaser_idempotent (rel : Releaser) (r : Res) :
    rel.run (rel.run r) = rel.run r ∧
      (rel.run r).handle = 0 ∧
      (rel.run (rel.run r)).released = (rel.run r).released ∧
      (rel.run (rel.run r)).released.length ≤ r.released.length + 1 := by
  rw [releaser_run_eq rel (rel.run r), releaser_run_eq rel r]
  by_cases h : r.handle = 0 <;> simp [h]

/-! ## The variant that uses `assert` -/

/-- C9, as stated, fails: with `DBC_USEASSERTS` and `NDEBUG` both defined a
check whose expression is false does not abort; `assert` is empty there. -/
theorem C9_no_abort_under_ndebug :
    ¬ ∀ (cfg : Config) (site : Site) (k : CheckKind) (g : Guard Nat) (w : World Nat),
        cfg.useAsserts = true → (g.run w.vars).1 = 0 →
          (runCheck cfg site k g w).1 = Flow.abort site := by
  intro h
  have h0 := h cfgAssertsNdebug { file := "dbctest.c", func := "MIDCONDITION_Fail", line := 57 }
    CheckKind.mid (pureGuard "NULL" 0) world0 (by decide) (by decide)
  revert h0
  decide

/-- C9, amended: under `DBC_USEASSERTS`, each of the four checks whose
expression is false never jumps to a failure handler and writes no log line;
when `NDEBUG` is not defined it invokes the fatal assertion of the host (the
process aborts with a diagnostic for the call site), and when `NDEBUG` is
defined it does nothing and control falls through. -/
theorem C9_asserts_abort_without_ndebug {σ : Type} (cfg : Config) (site : Site)
    (k : CheckKind) (g : Guard σ) (w : World σ) (hA : cfg.useAsserts = true)
    (hv : (g.run w.vars).1 = 0) :
    (runCheck cfg site k g w).1 = (if cfg.ndebug = true then Flow.next else Flow.abort site) ∧
      (∀ label : String, (runCheck cfg site k g w).1 ≠ Flow.jump label) ∧
      (runCheck cfg site k g w).2.log = w.log := by
  rw [runCheck_useAsserts cfg site k g w hA]
  cases hN : cfg.ndebug <;> simp [cAssert, hN, evalExp, hv]

/-- C9, amended, at `MIDCONDITION(NULL)` compiled with `DBC_USEASSERTS`. -/
theorem C9_asserts_abort_without_ndebug_witness :
    (cfgAsserts.useAsserts = true ∧ ((pureGuard "NULL" 0).run world0.vars).1 = 0) ∧
      (runCheck cfgAsserts sampleSite CheckKind.mid (pureGuard "NULL" 0) world0).1 =
        (if cfgAsserts.ndebug = true then Flow.next else Flow.abort sampleSite) ∧
      (∀ label : String,
        (runCheck cfgAsserts sampleSite CheckKind.mid (pureGuard "NULL" 0) world0).1 ≠
          Flow.jump label) ∧
      (runCheck cfgAsserts sampleSite CheckKind.mid (pureGuard "NULL" 0) world0).2.log =
        world0.log :=
  ⟨⟨by decide, by decide⟩,
    C9_asserts_abort_without_ndebug cfgAsserts sampleSite CheckKind.mid (pureGuard "NULL" 0)
      world0 (by decide) (by decide)⟩

/-- C10, as stated, fails: with `DBC_USEASSERTS` and `NDEBUG` both defined
the violation `POSTCONDITION(false)` of `dbctest.c` does not terminate the
process: the statement after it (`ret = true;`) runs and the function goes on
to return to its caller. -/
theorem C10_violation_continues_under_ndebug :
    ¬ ∀ (cfg : Config) (site : Site) (k : CheckKind) (g : Guard Nat) (w : World Nat)
        (rest : World Nat → Flow × World Nat),
        cfg.useAsserts = true → (g.run w.vars).1 = 0 →
          (andThen (runCheck cfg site k g w) rest).1 = Flow.abort site := by
  intro h
  have h0 := h cfgAssertsNdebug { file := "dbctest.c", func := "POSTCONDITION_Fail", line := 72 }
    CheckKind.post (pureGuard "false" 0) world0
    (fun w1 => (Flow.next, { w1 with vars := 1 })) (by decide) (by decide)
  revert h0
  decide

/-- C10, amended: under `DBC_USEASSERTS` with `NDEBUG` not defined, every
violation of one of the four checks terminates the process with the
diagnostic of `assert` for the call site: whatever statements follow the
check (the rest of the function, its handlers, its return), none of them
runs, so no handler is reached and nothing is returned to the caller. -/
theorem C10_violation_terminates_without_ndebug {σ : Type} (cfg : Config) (site : Site)
    (k : CheckKind) (g : Guard σ) (w : World σ) (rest : World σ → Flow × World σ)
    (hA : cfg.useAsserts = true) (hN : cfg.ndebug = false) (hv : (g.run w.vars).1 = 0) :
    andThen (runCheck cfg site k g w) rest = (Flow.abort site, (evalExp g w).2) := by
  rw [runCheck_useAsserts cfg site k g w hA]
  simp [cAssert, hN, evalExp, hv, andThen]

/-- C10, amended, at `POSTCONDITION(false)` followed by `ret = true;`. -/
theorem C10_violation_terminates_without_ndebug_witness :
    (cfgAsserts.useAsserts = true ∧ cfgAsserts.ndebug = false ∧
        ((pureGuard "false" 0).run world0.vars).1 = 0) ∧
      andThen (runCheck cfgAsserts sampleSite CheckKind.post (pureGuard "false" 0) world0)
          (fun w1 => (Flow.next, { w1 with vars := 1 })) =
        (Flow.abort sampleSite, (evalExp (pureGuard "false" 0) world0).2) :=
  ⟨⟨by decide, by decide, by decide⟩,
    C10_violation_terminates_without_ndebug cfgAsserts sampleSite CheckKind.post
      (pureGuard "false" 0) world0 (fun w1 => (Flow.next, { w1 with vars := 1 }))
      (by decide) (by decide) (by decide)⟩

/-! ## The format of the log lines -/

/-- A check leaves the log as it is or appends one entry, written to
`ERRLOGDEST`. -/
theorem runCheck_log_cases {σ : Type} (cfg : Config) (site : Site) (k : CheckKind)
    (g : Guard σ) (w : World σ) :
    (runCheck cfg site k g w).2.log = w.log ∨
      ∃ text, (runCheck cfg site k g w).2.log =
        w.log ++ [{ dest := ERRLOGDEST cfg, text := text }] := by
  cases hA : cfg.useAsserts
  · by_cases hv : (g.run w.vars).1 = 0
    · rw [runCheck_dispatch_fail cfg site k g w hA hv]
      cases hN : cfg.ndebug
      · right
        exact ⟨_, by simp [CHECK, ERRLOGPRINTF, evalExp]; rfl⟩
      · left
        simp [evalExp]
    · left
      rw [runCheck_dispatch_pass cfg site k g w hA hv]
      simp [evalExp]
  · left
    rw [runCheck_useAsserts cfg site k g w hA]
    cases hN : cfg.ndebug <;> by_cases hv : (g.run w.vars).1 = 0 <;>
      simp [cAssert, hN, evalExp, hv]

/-- C12: for every build configuration, every log line a check or `FAIL`
emits goes to exactly one destination, the system log at error priority when
`DBC_LOGGING_SYSLOG` is defined and the console (`stdout`) otherwise; with no
configuration flag defined logging is enabled and the destination is the
console, so a failing check writes its one line there. -/
theorem C12_log_destination {σ : Type} (cfg : Config) (site : Site) (exp : Bool)
    (str context : String) (k : CheckKind) (g : Guard σ) (w : World σ) :
    (∀ e ∈ (CHECK cfg site exp str context w).log,
        e ∈ w.log ∨
          e.dest = (if cfg.loggingSyslog = true then Dest.syslogErr else Dest.stdout)) ∧
      (∀ e ∈ (FAIL cfg site w).2.log,
        e ∈ w.log ∨
          e.dest = (if cfg.loggingSyslog = true then Dest.syslogErr else Dest.stdout)) ∧
      (∀ e ∈ (runCheck cfg site k g w).2.log,
        e ∈ w.log ∨
          e.dest = (if cfg.loggingSyslog = true then Dest.syslogErr else Dest.stdout)) ∧
      (DBC_LOGGING
          { useAsserts := false, ndebug := false, loggingSyslog := false,
            organisation := none } = true ∧
        ERRLOGDEST
          { useAsserts := false, ndebug := false, loggingSyslog := false,
            organisation := none } = Dest.stdout) ∧
      ((g.run w.vars).1 = 0 →
        ∃ text,
          (runCheck
              { useAsserts := false, ndebug := false, loggingSyslog := false,
                organisation := none } site k g w).2.log =
            w.log ++ [{ dest := Dest.stdout, text := text }]) := by
  refine ⟨?_, ?_, ?_, ⟨by decide, by decide⟩, ?_⟩
  · intro e he
    cases exp <;>
      simp only [CHECK, ERRLOGPRINTF, ERRLOGDEST, Bool.not_false, Bool.not_true,
        if_true, List.mem_append, List.mem_singleton] at he ⊢
    · rcases he with he | he
      · exact Or.inl he
      · right; rw [he]
    · exact Or.inl (by simpa using he)
  · intro e he
    simp only [FAIL, ERRLOGPRINTF, ERRLOGDEST, List.mem_append, List.mem_singleton] at he ⊢
    rcases he with he | he
    · exact Or.inl he
    · right; rw [he]
  · intro e he
    rcases runCheck_log_cases cfg site k g w with h | ⟨text, h⟩
    · rw [h] at he
      exact Or.inl he
    · rw [h, List.mem_append, List.mem_singleton] at he
      rcases he with he | he
      · exact Or.inl he
      · right; rw [he]; simp [ERRLOGDEST]
  · intro hv
    rw [runCheck_dispatch_fail _ site k g w rfl hv]
    exact ⟨_, by simp [CHECK, ERRLOGPRINTF, ERRLOGDEST, evalExp]; rfl⟩

/-- C12 at `PRECONDITION(NULL)` of `dbctest.c` compiled with
`DBC_LOGGING_SYSLOG`: its line goes to the system log. -/
theorem C12_log_destination_witness :
    ({ dest := Dest.syslogErr,
       text := some ("damco: PRECONDITION failed - "
         ++ "dbctest.c:PRECONDITION_Fail:42, \"NULL\" is false\n") } : LogEntry) ∈
        (runCheck (dbctestConfig false false true) sampleSite CheckKind.pre
          (pureGuard "NULL" 0) world0).2.log ∧
      (({ dest := Dest.syslogErr,
          text := some ("damco: PRECONDITION failed - "
            ++ "dbctest.c:PRECONDITION_Fail:42, \"NULL\" is false\n") } : LogEntry) ∈
          world0.log ∨
        ({ dest := Dest.syslogErr,
           text := some ("damco: PRECONDITION failed - "
             ++ "dbctest.c:PRECONDITION_Fail:42, \"NULL\" is false\n") } : LogEntry).dest =
          (if (dbctestConfig false false true).loggingSyslog = true then Dest.syslogErr
            else Dest.stdout)) :=
  ⟨by decide,
    (C12_log_destination (dbctestConfig false false true) sampleSite false
      (stringLiteralSpelling "NULL") "PRECONDITION" CheckKind.pre (pureGuard "NULL" 0)
      world0).2.2.1 _ (by decide)⟩

/-! ## The self-test program -/

/-- With a non-null input and a successful allocation `ALL_Success` passes
its three checks, skips `FAIL` and returns `true` without logging. -/
theorem ALL_Success_dispatch_ok (cfg : Config) (qString dup : Int) (g : World Unit)
    (hA : cfg.useAsserts = false) (hq : qString ≠ 0) (hd : dup ≠ 0) :
    ALL_Success cfg qString dup g =
      Outcome.returned true { vars := (), evals := g.evals + 3, log := g.log } := by
  cases hN : cfg.ndebug <;>
    simp [ALL_Success, PRECONDITION, MIDCONDITION, POSTCONDITION, hA, hN, DBC_LOGGING, CHECK,
      evalExp, andThen, leave, enter, globals, hq, hd]

/-- With a null input `ALL_Success` returns `false` from its handler. -/
theorem ALL_Success_dispatch_null (cfg : Config) (dup : Int) (g : World Unit)
    (hA : cfg.useAsserts = false) :
    (ALL_Success cfg 0 dup g).result = some false := by
  cases hN : cfg.ndebug <;>
    simp [ALL_Success, PRECONDITION, hA, hN, DBC_LOGGING, CHECK, ERRLOGPRINTF, evalExp,
      andThen, leave, enter, globals, Outcome.result]

/-- With a failed allocation `ALL_Success` returns `false` from its handler. -/
theorem ALL_Success_dispatch_nodup (cfg : Config) (qString : Int) (g : World Unit)
    (hA : cfg.useAsserts = false) (hq : qString ≠ 0) :
    (ALL_Success cfg qString 0 g).result = some false := by
  cases hN : cfg.ndebug <;>
    simp [ALL_Success, PRECONDITION, MIDCONDITION, hA, hN, DBC_LOGGING, CHECK, ERRLOGPRINTF,
      evalExp, andThen, leave, enter, globals, hq, Outcome.result]

/-- The outcome of `PRECONDITION_Fail` in the dispatch variants. -/
theorem PRECONDITION_Fail_dispatch (ndebug syslog : Bool) (qString : Int) (g : World Unit) :
    PRECONDITION_Fail (dbctestConfig false ndebug syslog) qString g =
      Outcome.returned false
        { vars := (), evals := g.evals + 1,
          log := if ndebug = true then g.log
            else g.log ++ [{ dest := if syslog = true then Dest.syslogErr else Dest.stdout,
                             text := some ("damco: PRECONDITION failed - "
                               ++ "dbctest.c:PRECONDITION_Fail:42, \"NULL\" is false\n") }] } := by
  cases ndebug <;> cases syslog <;> rfl

/-- The outcome of `MIDCONDITION_Fail` in the dispatch variants. -/
theorem MIDCONDITION_Fail_dispatch (ndebug syslog : Bool) (qString : Int) (g : World Unit) :
    MIDCONDITION_Fail (dbctestConfig false ndebug syslog) qString g =
      Outcome.returned false
        { vars := (), evals := g.evals + 1,
          log := if ndebug = true then g.log
            else g.log ++ [{ dest := if syslog = true then Dest.syslogErr else Dest.stdout,
                             text := some ("damco: MIDCONDITION failed - "
                               ++ "dbctest.c:MIDCONDITION_Fail:57, \"NULL\" is false\n") }] } := by
  cases ndebug <;> cases syslog <;> rfl

/-- The outcome of `POSTCONDITION_Fail` in the dispatch variants. -/
theorem POSTCONDITION_Fail_dispatch (ndebug syslog : Bool) (qString : Int) (g : World Unit) :
    POSTCONDITION_Fail (dbctestConfig false ndebug syslog) qString g =
      Outcome.returned false
        { vars := (), evals := g.evals + 1,
          log := if ndebug = true then g.log
            else g.log ++ [{ dest := if syslog = true then Dest.syslogErr else Dest.stdout,
                             text := some ("damco: POSTCONDITION failed - "
                               ++ "dbctest.c:POSTCONDITION_Fail:72, \"false\" is false\n") }] } := by
  cases ndebug <;> cases syslog <;> rfl

/-- The outcome of `FAIL_Fail` in every variant: `FAIL` logs whatever the flags. -/
theorem FAIL_Fail_outcome (useAsserts ndebug syslog : Bool) (qString : Int) (g : World Unit) :
    FAIL_Fail (dbctestConfig useAsserts ndebug syslog) qString g =
      Outcome.returned false
        { vars := (), evals := g.evals,
          log := g.log ++ [{ dest := if syslog = true then Dest.syslogErr else Dest.stdout,
                             text := some "damco: failed - dbctest.c:FAIL_Fail:89\n" }] } := by
  cases useAsserts <;> cases ndebug <;> cases syslog <;> rfl

/-- C13: in both dispatch variants, for every non-null input string, when the
duplicate allocation succeeds, `ALL_Success` returns `true` and adds no line
to the log (`FAIL`, which always logs, is not reached); for a null input or a
failed allocation it returns the failure sentinel `false`. -/
theorem C13_ALL_Success (cfg : Config) (qString dup : Int) (g : World Unit)
    (hA : cfg.useAsserts = false) :
    (qString ≠ 0 → dup ≠ 0 →
        (ALL_Success cfg qString dup g).result = some true ∧
          (ALL_Success cfg qString dup g).log = g.log) ∧
      (qString = 0 ∨ dup = 0 → (ALL_Success cfg qString dup g).result = some false) := by
  constructor
  · intro hq hd
    rw [ALL_Success_dispatch_ok cfg qString dup g hA hq hd]
    exact ⟨rfl, rfl⟩
  · intro h
    by_cases hq : qString = 0
    · rw [hq]
      exact ALL_Success_dispatch_null cfg dup g hA
    · rcases h with h | h
      · exact absurd h hq
      · rw [h]
        exact ALL_Success_dispatch_nodup cfg qString g hA hq

/-- C13 with logging, at a valid input and at a null input. -/
theorem C13_ALL_Success_witness :
    (cfgLogging.useAsserts = false ∧ (4096 : Int) ≠ 0 ∧ (8192 : Int) ≠ 0 ∧
        ((0 : Int) = 0 ∨ (8192 : Int) = 0)) ∧
      ((ALL_Success cfgLogging 4096 8192 { vars := (), evals := 0, log := [] }).result =
          some true ∧
        (ALL_Success cfgLogging 4096 8192 { vars := (), evals := 0, log := [] }).log = []) ∧
      (ALL_Success cfgLogging 0 8192 { vars := (), evals := 0, log := [] }).result =
        some false :=
  ⟨⟨by decide, by decide, by decide, by decide⟩,
    (C13_ALL_Success cfgLogging 4096 8192 { vars := (), evals := 0, log := [] }
      (by decide)).1 (by decide) (by decide),
    (C13_ALL_Success cfgLogging 0 8192 { vars := (), evals := 0, log := [] }
      (by decide)).2 (by decide)⟩

/-- C14: in both dispatch variants, for every input, each of
`PRECONDITION_Fail`, `MIDCONDITION_Fail`, `POSTCONDITION_Fail` and `FAIL_Fail`
returns its failure sentinel `false` (`ret = true` is not executed); with
logging each adds exactly one line to the log, of category `PRECONDITION`,
`MIDCONDITION`, `POSTCONDITION`, and the unconditional failure line without
expression text, respectively. -/
theorem C14_failing_scenarios (ndebug syslog : Bool) (qString : Int) (g : World Unit) :
    ((PRECONDITION_Fail (dbctestConfig false ndebug syslog) qString g).result = some false ∧
        (MIDCONDITION_Fail (dbctestConfig false ndebug syslog) qString g).result = some false ∧
        (POSTCONDITION_Fail (dbctestConfig false ndebug syslog) qString g).result = some false ∧
        (FAIL_Fail (dbctestConfig false ndebug syslog) qString g).result = some false) ∧
      (PRECONDITION_Fail (dbctestConfig false false syslog) qString g).log =
        g.log ++ [{ dest := if syslog = true then Dest.syslogErr else Dest.stdout,
                    text := some ("damco: PRECONDITION failed - "
                      ++ "dbctest.c:PRECONDITION_Fail:42, \"NULL\" is false\n") }] ∧
      (MIDCONDITION_Fail (dbctestConfig false false syslog) qString g).log =
        g.log ++ [{ dest := if syslog = true then Dest.syslogErr else Dest.stdout,
                    text := some ("damco: MIDCONDITION failed - "
                      ++ "dbctest.c:MIDCONDITION_Fail:57, \"NULL\" is false\n") }] ∧
      (POSTCONDITION_Fail (dbctestConfig false false syslog) qString g).log =
        g.log ++ [{ dest := if syslog = true then Dest.syslogErr else Dest.stdout,
                    text := some ("damco: POSTCONDITION failed - "
                      ++ "dbctest.c:POSTCONDITION_Fail:72, \"false\" is false\n") }] ∧
      (FAIL_Fail (dbctestConfig false false syslog) qString g).log =
        g.log ++ [{ dest := if syslog = true then Dest.syslogErr else Dest.stdout,
                    text := some "damco: failed - dbctest.c:FAIL_Fail:89\n" }] := by
  rw [PRECONDITION_Fail_dispatch, MIDCONDITION_Fail_dispatch, POSTCONDITION_Fail_dispatch,
    FAIL_Fail_outcome, PRECONDITION_Fail_dispatch, MIDCONDITION_Fail_dispatch,
    POSTCONDITION_Fail_dispatch, FAIL_Fail_outcome]
  exact ⟨⟨rfl, rfl, rfl, rfl⟩, rfl, rfl, rfl, rfl⟩

/-- C16: in both dispatch variants the outcome of a check depends only on
whether the guarded value is zero: for every integer or pointer value the
check falls through exactly when the value is non-zero (any non-zero value)
and jumps to its handler exactly when the value is 0 or `NULL`; with logging,
the logging test and the dispatch test agree: a line is appended exactly when
the check jumps, and the log is left as it is exactly when it falls
through. -/
theorem C16_truthiness_decides {σ : Type} (cfg : Config) (site : Site) (k : CheckKind)
    (g : Guard σ) (w : World σ) (hA : cfg.useAsserts = false) :
    ((runCheck cfg site k g w).1 = Flow.next ↔ (g.run w.vars).1 ≠ 0) ∧
      ((∃ label, (runCheck cfg site k g w).1 = Flow.jump label) ↔ (g.run w.vars).1 = 0) ∧
      (cfg.ndebug = false →
        ((runCheck cfg site k g w).2.log.length = w.log.length + 1 ↔
            ∃ label, (runCheck cfg site k g w).1 = Flow.jump label) ∧
          ((runCheck cfg site k g w).2.log = w.log ↔
            (runCheck cfg site k g w).1 = Flow.next)) := by
  by_cases hv : (g.run w.vars).1 = 0
  · rw [runCheck_dispatch_fail cfg site k g w hA hv]
    refine ⟨by simp [hv], by simp [hv], fun hN => ?_⟩
    simp [hN, CHECK, ERRLOGPRINTF, evalExp]
  · rw [runCheck_dispatch_pass cfg site k g w hA hv]
    refine ⟨by simp [hv], by simp [hv], fun _ => ?_⟩
    simp [evalExp]

/-- C16 at `PRECONDITION(p)` with the non-null pointer value 4096, with
logging. -/
theorem C16_truthiness_decides_witness :
    (cfgLogging.useAsserts = false ∧ cfgLogging.ndebug = false) ∧
      ((runCheck cfgLogging sampleSite CheckKind.pre (pureGuard "p" 4096) world0).1 = Flow.next ↔
        ((pureGuard "p" 4096).run world0.vars).1 ≠ 0) ∧
      ((∃ label, (runCheck cfgLogging sampleSite CheckKind.pre (pureGuard "p" 4096) world0).1 =
          Flow.jump label) ↔ ((pureGuard "p" 4096).run world0.vars).1 = 0) ∧
      ((runCheck cfgLogging sampleSite CheckKind.pre (pureGuard "p" 4096) world0).2.log.length =
            world0.log.length + 1 ↔
          ∃ label, (runCheck cfgLogging sampleSite CheckKind.pre (pureGuard "p" 4096) world0).1 =
            Flow.jump label) ∧
      ((runCheck cfgLogging sampleSite CheckKind.pre (pureGuard "p" 4096) world0).2.log =
          world0.log ↔
        (runCheck cfgLogging sampleSite CheckKind.pre (pureGuard "p" 4096) world0).1 =
          Flow.next) :=
  ⟨⟨by decide, by decide⟩,
    (C16_truthiness_decides cfgLogging sampleSite CheckKind.pre (pureGuard "p" 4096) world0
      (by decide)).1,
    (C16_truthiness_decides cfgLogging sampleSite CheckKind.pre (pureGuard "p" 4096) world0
      (by decide)).2.1,
    (C16_truthiness_decides cfgLogging sampleSite CheckKind.pre (pureGuard "p" 4096) world0
      (by decide)).2.2 (by decide)⟩

/-! ## `DBC_USEASSERTS` together with `NDEBUG` -/

/-- C17: when `DBC_USEASSERTS` and `NDEBUG` are both defined, each of the four
checks is a no-op for every expression, a false one included: the expression
is not evaluated, nothing is logged, the process does not abort, no handler
is reached, and control falls through with the state untouched. -/
theorem C17_noop_under_asserts_ndebug {σ : Type} (cfg : Config) (site : Site)
    (k : CheckKind) (g : Guard σ) (w : World σ) (hA : cfg.useAsserts = true)
    (hN : cfg.ndebug = true) :
    runCheck cfg site k g w = (Flow.next, w) := by
  rw [runCheck_useAsserts cfg site k g w hA]
  simp [cAssert, hN]

/-- C17 at `MIDCONDITION_EX(NULL, SPECIAL)` with a side effect. -/
theorem C17_noop_under_asserts_ndebug_witness :
    (cfgAssertsNdebug.useAsserts = true ∧ cfgAssertsNdebug.ndebug = true) ∧
      runCheck cfgAssertsNdebug sampleSite (CheckKind.midEx "SPECIAL")
          (countingGuard "NULL" 0) world0 = (Flow.next, world0) :=
  ⟨⟨by decide, by decide⟩,
    C17_noop_under_asserts_ndebug cfgAssertsNdebug sampleSite (CheckKind.midEx "SPECIAL")
      (countingGuard "NULL" 0) world0 (by decide) (by decide)⟩

end Dbc
